import Mathlib

/-!
Shallow embedding of the financial calculation engine of the
financial-advisor-ai dashboard, translated from the TypeScript sources
(DebtStrategyCard, FIREProgressCard, GoalsTracker, FinancialHealthScore),
together with theorems settling the specification claims about it.

Modelling conventions:
* Monetary amounts, rates and percentages in the data model are rationals;
  they are cast into the reals where the code applies transcendental
  operations (Math.log, compound growth).
* JavaScript numbers that can take the IEEE special values are modelled by
  the type JsNum below; signed zeros are not modelled.
* Dates are modelled as whole-day integer timestamps, so the date-fns
  function differenceInDays is integer subtraction.
-/

noncomputable section

/-- Idealized JavaScript number: a real value or one of the IEEE special
values Infinity, -Infinity and NaN.  Signed zeros are not modelled; the
operations below implement the IEEE special-value rules on this
idealization, restricted to what the translated code can produce. -/
inductive JsNum where
  | nan : JsNum
  | inf : JsNum
  | ninf : JsNum
  | fin : ℝ → JsNum

/-- JavaScript addition with IEEE special values. -/
def jsAdd : JsNum → JsNum → JsNum
  | .nan, _ => .nan
  | _, .nan => .nan
  | .inf, .ninf => .nan
  | .ninf, .inf => .nan
  | .inf, _ => .inf
  | _, .inf => .inf
  | .ninf, _ => .ninf
  | _, .ninf => .ninf
  | .fin a, .fin b => .fin (a + b)

/-- JavaScript multiplication with IEEE special values. -/
def jsMul : JsNum → JsNum → JsNum
  | .nan, _ => .nan
  | _, .nan => .nan
  | .inf, .inf => .inf
  | .inf, .ninf => .ninf
  | .ninf, .inf => .ninf
  | .ninf, .ninf => .inf
  | .inf, .fin b => if b = 0 then .nan else if 0 < b then .inf else .ninf
  | .fin a, .inf => if a = 0 then .nan else if 0 < a then .inf else .ninf
  | .ninf, .fin b => if b = 0 then .nan else if 0 < b then .ninf else .inf
  | .fin a, .ninf => if a = 0 then .nan else if 0 < a then .ninf else .inf
  | .fin a, .fin b => .fin (a * b)

/-- JavaScript division with IEEE special values.  In particular
0 / 0 = NaN and x / 0 = plus or minus Infinity for finite nonzero x
(the sign of zero is not modelled, so a positive numerator over zero
gives Infinity). -/
def jsDiv : JsNum → JsNum → JsNum
  | .nan, _ => .nan
  | _, .nan => .nan
  | .inf, .inf => .nan
  | .inf, .ninf => .nan
  | .ninf, .inf => .nan
  | .ninf, .ninf => .nan
  | .inf, .fin b => if 0 ≤ b then .inf else .ninf
  | .ninf, .fin b => if 0 ≤ b then .ninf else .inf
  | .fin _, .inf => .fin 0
  | .fin _, .ninf => .fin 0
  | .fin a, .fin b =>
      if b = 0 then (if a = 0 then .nan else if 0 < a then .inf else .ninf)
      else .fin (a / b)

/-- JavaScript Math.log on a real argument: NaN on negatives,
-Infinity at zero, the natural logarithm on positives. -/
def jsLog (x : ℝ) : JsNum :=
  if x < 0 then .nan else if x = 0 then .ninf else .fin (Real.log x)

/-- JavaScript Math.ceil: the ceiling on finite values, identity on the
special values. -/
def jsCeil : JsNum → JsNum
  | .fin x => .fin ((⌈x⌉ : ℤ) : ℝ)
  | n => n

/-- JavaScript Math.round (round half toward positive infinity, which is
Mathlib round) on finite values, identity on the special values. -/
def jsRound : JsNum → JsNum
  | .fin x => .fin ((round x : ℤ) : ℝ)
  | n => n

/-- Debt record from types/financial (the fields the engine reads). -/
structure Debt where
  name : String
  balance : ℚ
  interestRate : ℚ
  minimumPayment : ℚ
deriving DecidableEq

/-- DebtStrategyCard.calculatePayoffTime, translated statement by
statement:

  const monthlyRate = debt.interestRate / 100 / 12
  const payment = debt.minimumPayment + extraPayment
  if (payment <= debt.balance * monthlyRate) return Infinity
  const months = Math.log(payment / (payment - debt.balance * monthlyRate))
                   / Math.log(1 + monthlyRate)
  return Math.ceil(months)

The division payment / (payment - balance * monthlyRate) has a strictly
positive denominator on the branch where it is evaluated, so it is plain
real division there.  The local bindings monthlyRate and payment of the
source are inlined. -/
def calculatePayoffTime (debt : Debt) (extraPayment : ℚ) : JsNum :=
  if (debt.minimumPayment : ℝ) + (extraPayment : ℝ) ≤
      (debt.balance : ℝ) * ((debt.interestRate : ℝ) / 100 / 12) then JsNum.inf
  else
    jsCeil (jsDiv
      (jsLog (((debt.minimumPayment : ℝ) + (extraPayment : ℝ)) /
        (((debt.minimumPayment : ℝ) + (extraPayment : ℝ)) -
          (debt.balance : ℝ) * ((debt.interestRate : ℝ) / 100 / 12))))
      (jsLog (1 + (debt.interestRate : ℝ) / 100 / 12)))

/-- Evaluation rule for jsDiv on finite values with nonzero divisor. -/
theorem jsDiv_fin_fin {b : ℝ} (a : ℝ) (hb : b ≠ 0) :
    jsDiv (.fin a) (.fin b) = .fin (a / b) := by
  simp [jsDiv, hb]

/-- Evaluation rule for jsLog on positive arguments. -/
theorem jsLog_of_pos {x : ℝ} (hx : 0 < x) : jsLog x = .fin (Real.log x) := by
  simp [jsLog, not_lt.mpr hx.le, hx.ne']

/-- On the non-convergent branch the code returns the JavaScript value
Infinity. -/
theorem calculatePayoffTime_eq_inf (debt : Debt) (extraPayment : ℚ)
    (h : debt.minimumPayment + extraPayment ≤
      debt.balance * (debt.interestRate / 100 / 12)) :
    calculatePayoffTime debt extraPayment = JsNum.inf := by
  unfold calculatePayoffTime
  rw [if_pos (by exact_mod_cast h)]

/-- On the convergent branch (nonnegative balance, positive rate, payment
above the interest floor) the code returns the finite value given by the
ceiling of the closed amortization formula. -/
theorem calculatePayoffTime_eq_fin (debt : Debt) (extraPayment : ℚ)
    (hb : 0 ≤ debt.balance) (hr : 0 < debt.interestRate)
    (hp : debt.balance * (debt.interestRate / 100 / 12) <
      debt.minimumPayment + extraPayment) :
    calculatePayoffTime debt extraPayment =
      JsNum.fin ((⌈Real.log
          (((debt.minimumPayment : ℝ) + (extraPayment : ℝ)) /
            (((debt.minimumPayment : ℝ) + (extraPayment : ℝ)) -
              (debt.balance : ℝ) * ((debt.interestRate : ℝ) / 100 / 12))) /
        Real.log (1 + (debt.interestRate : ℝ) / 100 / 12)⌉ : ℤ) : ℝ) := by
  have hbR : (0 : ℝ) ≤ (debt.balance : ℝ) := by exact_mod_cast hb
  have hrR : (0 : ℝ) < (debt.interestRate : ℝ) := by exact_mod_cast hr
  have hpR : (debt.balance : ℝ) * ((debt.interestRate : ℝ) / 100 / 12) <
      (debt.minimumPayment : ℝ) + (extraPayment : ℝ) := by exact_mod_cast hp
  have hbr : (0 : ℝ) ≤ (debt.balance : ℝ) * ((debt.interestRate : ℝ) / 100 / 12) := by
    positivity
  have hpay : (0 : ℝ) < (debt.minimumPayment : ℝ) + (extraPayment : ℝ) :=
    lt_of_le_of_lt hbr hpR
  have hden : (0 : ℝ) < ((debt.minimumPayment : ℝ) + (extraPayment : ℝ)) -
      (debt.balance : ℝ) * ((debt.interestRate : ℝ) / 100 / 12) := by linarith
  have hratio : (0 : ℝ) < (((debt.minimumPayment : ℝ) + (extraPayment : ℝ)) /
      (((debt.minimumPayment : ℝ) + (extraPayment : ℝ)) -
        (debt.balance : ℝ) * ((debt.interestRate : ℝ) / 100 / 12))) :=
    div_pos hpay hden
  have hbase : (0 : ℝ) < 1 + (debt.interestRate : ℝ) / 100 / 12 := by positivity
  have hlogbase : Real.log (1 + (debt.interestRate : ℝ) / 100 / 12) ≠ 0 := by
    have : (1 : ℝ) < 1 + (debt.interestRate : ℝ) / 100 / 12 := by linarith
    exact (Real.log_pos this).ne.symm
  unfold calculatePayoffTime
  rw [if_neg (not_le.mpr hpR)]
  rw [jsLog_of_pos hratio, jsLog_of_pos hbase, jsDiv_fin_fin _ hlogbase]
  rfl

/-- Bridge between the logarithmic closed form and integer powers: for a
base above 1, the ceiling of log ratio / log base is the least exponent n
with base ^ n at least ratio. -/
theorem ceil_log_div_log_eq (base ratio : ℝ) (hb : 1 < base) (m : ℕ)
    (hlow : base ^ m < ratio) (hhigh : ratio ≤ base ^ (m + 1)) :
    ⌈Real.log ratio / Real.log base⌉ = (m : ℤ) + 1 := by
  have hbpos : (0 : ℝ) < base := by linarith
  have hlb : 0 < Real.log base := Real.log_pos hb
  have hrpos : (0 : ℝ) < ratio := lt_trans (pow_pos hbpos m) hlow
  rw [Int.ceil_eq_iff]
  constructor
  · rw [lt_div_iff₀ hlb]
    have hm : (((m : ℤ) + 1 : ℤ) : ℝ) - 1 = (m : ℝ) := by push_cast; ring
    rw [hm, ← Real.log_pow]
    exact Real.log_lt_log (pow_pos hbpos m) hlow
  · rw [div_le_iff₀ hlb]
    have hm : (((m : ℤ) + 1 : ℤ) : ℝ) = ((m + 1 : ℕ) : ℝ) := by push_cast; ring
    rw [hm, ← Real.log_pow]
    exact (Real.log_le_log_iff hrpos (pow_pos hbpos (m + 1))).mpr hhigh

/-- Modelled from the spec (testable properties): the direct month-by-month
amortization simulation used as the reference for the closed-form payoff
count.  Each month interest accrues at the monthly rate and the payment is
subtracted; the result is the number of months until the balance drops to
zero or below (with a fuel bound, enough for the inputs considered). -/
def specAmortizationMonths (r p : ℚ) (balance : ℚ) : ℕ → ℕ
  | 0 => 0
  | fuel + 1 =>
      if balance ≤ 0 then 0
      else 1 + specAmortizationMonths r p (balance * (1 + r) - p) fuel

/-- A nonpositive balance is already paid off: the simulation reports zero
months regardless of the fuel. -/
theorem specAmortizationMonths_nonpos (r p balance : ℚ) (h : balance ≤ 0) :
    ∀ fuel, specAmortizationMonths r p balance fuel = 0 := by
  intro fuel
  cases fuel with
  | zero => rfl
  | succ n => simp [specAmortizationMonths, h]

/-- The simulation terminates after exactly m + 1 months when the scaled
first-period margin p - balance * r, amplified by (1 + r) ^ k, first
reaches the payment p at k = m + 1.  These are the same power bounds that
drive the ceiling of the logarithmic closed form. -/
theorem specAmortizationMonths_eq (r p : ℚ) (hr : 0 < r) :
    ∀ (m : ℕ) (balance : ℚ), 0 < balance → balance * r < p →
      (1 + r) ^ m * (p - balance * r) < p →
      p ≤ (1 + r) ^ (m + 1) * (p - balance * r) →
      ∀ fuel, m + 1 ≤ fuel → specAmortizationMonths r p balance fuel = m + 1 := by
  intro m
  induction m with
  | zero =>
      intro balance hb hbr hlow hhigh fuel hfuel
      obtain ⟨f, rfl⟩ : ∃ f, fuel = f + 1 := ⟨fuel - 1, by omega⟩
      have hnext : balance * (1 + r) - p ≤ 0 := by
        rw [pow_one] at hhigh
        nlinarith
      rw [specAmortizationMonths, if_neg (not_le.mpr hb),
        specAmortizationMonths_nonpos r p _ hnext]
  | succ m ih =>
      intro balance hb hbr hlow hhigh fuel hfuel
      obtain ⟨f, rfl⟩ : ∃ f, fuel = f + 1 := ⟨fuel - 1, by omega⟩
      have hmargin : 0 < p - balance * r := by linarith
      have hbase : (1 : ℚ) ≤ 1 + r := by linarith
      have hstep : (1 + r) * (p - balance * r) < p := by
        have hmono : (1 + r) ^ 1 ≤ (1 + r) ^ (m + 1) :=
          pow_le_pow_right₀ hbase (by omega)
        rw [pow_one] at hmono
        calc (1 + r) * (p - balance * r)
            ≤ (1 + r) ^ (m + 1) * (p - balance * r) := by nlinarith
          _ < p := hlow
      have hnextpos : 0 < balance * (1 + r) - p := by nlinarith
      have hnextbr : (balance * (1 + r) - p) * r < p := by nlinarith
      have hrw : p - (balance * (1 + r) - p) * r = (1 + r) * (p - balance * r) := by
        ring
      have hlow2 : (1 + r) ^ m * (p - (balance * (1 + r) - p) * r) < p := by
        rw [hrw, ← mul_assoc, mul_comm ((1 + r) ^ m) (1 + r), ← pow_succ']
        exact hlow
      have hhigh2 : p ≤ (1 + r) ^ (m + 1) * (p - (balance * (1 + r) - p) * r) := by
        rw [hrw, ← mul_assoc, mul_comm ((1 + r) ^ (m + 1)) (1 + r), ← pow_succ']
        exact hhigh
      rw [specAmortizationMonths, if_neg (not_le.mpr hb),
        ih _ hnextpos hnextbr hlow2 hhigh2 f (by omega)]
      omega

/-- Stable insertion step: x is placed before the first element y of the
(already processed) list with le x y, hence after every equivalent earlier
element.  This models the stable ordering contract of the JavaScript
Array sort with a consistent comparator. -/
def insertSorted {α : Type} (le : α → α → Prop) [DecidableRel le] (x : α) :
    List α → List α
  | [] => [x]
  | y :: ys => if le x y then x :: y :: ys else y :: insertSorted le x ys

/-- Stable sort by repeated insertion, processing input from the left. -/
def stableSort {α : Type} (le : α → α → Prop) [DecidableRel le] :
    List α → List α
  | [] => []
  | x :: xs => insertSorted le x (stableSort le xs)

theorem insertSorted_perm {α : Type} (le : α → α → Prop) [DecidableRel le]
    (x : α) (l : List α) : (insertSorted le x l).Perm (x :: l) := by
  induction l with
  | nil => rfl
  | cons y ys ih =>
      by_cases h : le x y
      · simp [insertSorted, h]
      · simpa [insertSorted, h] using (ih.cons y).trans (List.Perm.swap x y ys)

theorem stableSort_perm {α : Type} (le : α → α → Prop) [DecidableRel le]
    (l : List α) : (stableSort le l).Perm l := by
  induction l with
  | nil => rfl
  | cons x xs ih =>
      exact (insertSorted_perm le x (stableSort le xs)).trans (ih.cons x)

theorem mem_insertSorted {α : Type} (le : α → α → Prop) [DecidableRel le]
    (x z : α) (l : List α) : z ∈ insertSorted le x l ↔ z = x ∨ z ∈ l := by
  rw [(insertSorted_perm le x l).mem_iff, List.mem_cons]

theorem insertSorted_pairwise {α : Type} (le : α → α → Prop) [DecidableRel le]
    (htot : ∀ a b, le a b ∨ le b a) (htrans : ∀ a b c, le a b → le b c → le a c)
    (x : α) (l : List α) (hl : l.Pairwise le) :
    (insertSorted le x l).Pairwise le := by
  induction l with
  | nil => simp [insertSorted]
  | cons y ys ih =>
      rw [List.pairwise_cons] at hl
      obtain ⟨hy, hys⟩ := hl
      by_cases h : le x y
      · rw [insertSorted, if_pos h, List.pairwise_cons]
        refine ⟨?_, List.pairwise_cons.mpr ⟨hy, hys⟩⟩
        intro z hz
        rcases List.mem_cons.mp hz with rfl | hz
        · exact h
        · exact htrans x y z h (hy z hz)
      · rw [insertSorted, if_neg h, List.pairwise_cons]
        refine ⟨?_, ih hys⟩
        intro z hz
        rcases (mem_insertSorted le x z ys).mp hz with rfl | hz
        · exact (htot y z).resolve_right h
        · exact hy z hz

theorem stableSort_pairwise {α : Type} (le : α → α → Prop) [DecidableRel le]
    (htot : ∀ a b, le a b ∨ le b a) (htrans : ∀ a b c, le a b → le b c → le a c)
    (l : List α) : (stableSort le l).Pairwise le := by
  induction l with
  | nil => exact List.Pairwise.nil
  | cons x xs ih => exact insertSorted_pairwise le htot htrans x _ ih

theorem filter_insertSorted_neg {α : Type} (le : α → α → Prop) [DecidableRel le]
    (p : α → Bool) (x : α) (l : List α) (hx : p x = false) :
    (insertSorted le x l).filter p = l.filter p := by
  induction l with
  | nil => simp [insertSorted, hx]
  | cons y ys ih =>
      by_cases h : le x y
      · simp [insertSorted, h, hx]
      · rw [insertSorted, if_neg h]
        cases hy : p y <;> simp [List.filter, hy, ih]

theorem filter_insertSorted_pos {α : Type} (le : α → α → Prop) [DecidableRel le]
    (p : α → Bool) (x : α) (l : List α) (hx : p x = true)
    (h : ∀ y, p y = true → le x y) :
    (insertSorted le x l).filter p = x :: l.filter p := by
  induction l with
  | nil => simp [insertSorted, hx]
  | cons y ys ih =>
      by_cases hle : le x y
      · simp [insertSorted, hle, hx]
      · have hy : p y = false := by
          cases hy : p y
          · rfl
          · exact absurd (h y hy) hle
        rw [insertSorted, if_neg hle]
        simp [List.filter, hy, ih]

/-- Stability of the sort: elements that the comparator preorder cannot
separate (here: any class on which le holds both ways) appear in the
output in their original input order. -/
theorem filter_stableSort {α : Type} (le : α → α → Prop) [DecidableRel le]
    (p : α → Bool) (h : ∀ x y, p x = true → p y = true → le x y)
    (l : List α) : (stableSort le l).filter p = l.filter p := by
  induction l with
  | nil => rfl
  | cons x xs ih =>
      cases hx : p x
      · rw [stableSort, filter_insertSorted_neg le p x _ hx, ih]
        simp [List.filter, hx]
      · rw [stableSort,
          filter_insertSorted_pos le p x _ hx (fun y hy => h x y hx hy), ih]
        simp [List.filter, hx]

/-- The two payoff strategies offered by DebtStrategyCard. -/
inductive Strategy where
  | avalanche : Strategy
  | snowball : Strategy
deriving DecidableEq

/-- DebtStrategyCard.sortedDebts: a stable sort of the input debts.
The JavaScript comparator returns b.interestRate - a.interestRate for
avalanche (interest rate descending) and a.balance - b.balance for
snowball (balance ascending); a sorts no later than b exactly when the
comparator is nonpositive, which is the relation used here.  Array sort
is stable, modelled by stableSort. -/
def sortedDebts (strategy : Strategy) (debts : List Debt) : List Debt :=
  match strategy with
  | .avalanche => stableSort (fun a b => b.interestRate ≤ a.interestRate) debts
  | .snowball => stableSort (fun a b => a.balance ≤ b.balance) debts

/-- DebtStrategyCard: const extraPayment = 500 (assumed extra per month). -/
def extraPaymentBudget : ℚ := 500

/-- One entry of the payoff plan produced by DebtStrategyCard. -/
structure PayoffPlanItem where
  debt : Debt
  payoffOrder : ℕ
  monthsToPayoff : JsNum
  extraPayment : ℚ

/-- The indexed map underlying DebtStrategyCard.payoffPlan: the extra
budget goes to the debt at index 0 (remainingExtra is never reassigned in
the source, so it stays equal to extraPayment); every other debt gets 0. -/
def planFrom (index : ℕ) : List Debt → List PayoffPlanItem
  | [] => []
  | debt :: rest =>
      { debt := debt
        payoffOrder := index + 1
        monthsToPayoff :=
          calculatePayoffTime debt (if index = 0 then extraPaymentBudget else 0)
        extraPayment := if index = 0 then extraPaymentBudget else 0 } ::
        planFrom (index + 1) rest

/-- DebtStrategyCard.payoffPlan: sortedDebts.map((debt, index) => ...). -/
def payoffPlan (strategy : Strategy) (debts : List Debt) : List PayoffPlanItem :=
  planFrom 0 (sortedDebts strategy debts)

/-- FIREProgressCard metrics record (the fields the projection reads). -/
structure FIREMetrics where
  currentSavings : ℚ
  monthlyContribution : ℚ
  expectedReturn : ℚ

/-- FIREProgressCard.calculateFutureValue, translated statement by
statement:

  const r = metrics.expectedReturn / 100 / 12
  const n = years * 12
  const pmt = metrics.monthlyContribution
  const pv = metrics.currentSavings
  const futureValue = pv * Math.pow(1 + r, n) + pmt * ((Math.pow(1 + r, n) - 1) / r)
  return Math.round(futureValue)

Math.pow with a natural exponent is the monoid power and always finite, so
only the division by r and the subsequent multiplication and addition can
produce special values; they go through the JsNum operations. -/
def calculateFutureValue (metrics : FIREMetrics) (years : ℕ) : JsNum :=
  jsRound (jsAdd
    (JsNum.fin ((metrics.currentSavings : ℝ) *
      (1 + (metrics.expectedReturn : ℝ) / 100 / 12) ^ (years * 12)))
    (jsMul (JsNum.fin (metrics.monthlyContribution : ℝ))
      (jsDiv
        (JsNum.fin ((1 + (metrics.expectedReturn : ℝ) / 100 / 12) ^ (years * 12) - 1))
        (JsNum.fin ((metrics.expectedReturn : ℝ) / 100 / 12)))))

/-- The With Extra $500/mo series of FIREProgressCard.projectionData:
calculateFutureValue(year) + (500 * 12 * year * Math.pow(1.07, year)).
Note the hard-coded 1.07 growth factor of this ad hoc term. -/
def projectionWithExtra (metrics : FIREMetrics) (year : ℕ) : JsNum :=
  jsAdd (calculateFutureValue metrics year)
    (JsNum.fin ((500 : ℝ) * 12 * (year : ℕ) * (1.07 : ℝ) ^ (year : ℕ)))

/-- Financial goal record from types/financial (the fields the engine
reads); the target date is a whole-day integer timestamp. -/
structure FinancialGoal where
  id : String
  name : String
  targetAmount : ℚ
  currentAmount : ℚ
  targetDate : ℤ
deriving DecidableEq

/-- date-fns differenceInDays on whole-day timestamps. -/
def differenceInDays (dateLeft dateRight : ℤ) : ℤ :=
  dateLeft - dateRight

/-- GoalsTracker.calculateMonthlyNeeded, translated statement by
statement; the source reads the clock (new Date()), modelled by the
explicit parameter now:

  const remaining = goal.targetAmount - goal.currentAmount
  const daysUntilTarget = differenceInDays(goal.targetDate, new Date())
  const monthsRemaining = Math.max(1, daysUntilTarget / 30)
  return remaining / monthsRemaining
-/
def calculateMonthlyNeeded (goal : FinancialGoal) (now : ℤ) : ℚ :=
  (goal.targetAmount - goal.currentAmount) /
    max 1 ((differenceInDays goal.targetDate now : ℚ) / 30)

/-- Income record (the fields FinancialHealthScore reads). -/
structure Income where
  source : String
  amount : ℚ
  isActive : Bool
deriving DecidableEq

/-- Expense record (the fields FinancialHealthScore reads). -/
structure Expense where
  name : String
  amount : ℚ
deriving DecidableEq

/-- Asset record (the fields FinancialHealthScore reads). -/
structure Asset where
  name : String
  value : ℚ
deriving DecidableEq

/-- The actual needs/wants/savings triple of a budget allocation. -/
structure BudgetActual where
  needs : ℚ
  wants : ℚ
  savings : ℚ
deriving DecidableEq

/-- Budget allocation: target percentages plus measured actuals. -/
structure BudgetAllocation where
  needs : ℚ
  wants : ℚ
  savings : ℚ
  actual : BudgetActual
deriving DecidableEq

/-- The slice of UserFinancialProfile read by FinancialHealthScore. -/
structure UserFinancialProfile where
  incomes : List Income
  expenses : List Expense
  debts : List Debt
  assets : List Asset
  emergencyFundTarget : ℚ
  emergencyFundCurrent : ℚ
  creditScore : Option ℚ
  budgetAllocation : BudgetAllocation
deriving DecidableEq

/-- profile.incomes.reduce((sum, inc) => inc.isActive ? sum + inc.amount : sum, 0) -/
def totalIncome (profile : UserFinancialProfile) : ℚ :=
  profile.incomes.foldl (fun sum inc => if inc.isActive then sum + inc.amount else sum) 0

/-- profile.expenses.reduce((sum, exp) => sum + exp.amount, 0) -/
def totalExpenses (profile : UserFinancialProfile) : ℚ :=
  profile.expenses.foldl (fun sum exp => sum + exp.amount) 0

/-- profile.debts.reduce((sum, debt) => sum + debt.balance, 0) -/
def totalDebt (profile : UserFinancialProfile) : ℚ :=
  profile.debts.foldl (fun sum debt => sum + debt.balance) 0

/-- profile.assets.reduce((sum, asset) => sum + asset.value, 0) -/
def totalAssets (profile : UserFinancialProfile) : ℚ :=
  profile.assets.foldl (fun sum asset => sum + asset.value) 0

/-- The six sub-scores of FinancialHealthScore. -/
structure HealthScores where
  emergencyFund : ℚ
  debtToIncome : ℚ
  savingsRate : ℚ
  netWorth : ℚ
  creditScore : ℚ
  budgetAdherence : ℚ
deriving DecidableEq

/-- FinancialHealthScore.scores, translated field by field.  The source
comment reads Scoring factors (0-100 each).  Rational division by zero
yields 0 here where JavaScript would produce a special value; the claims
about these scores are stated with positive income and positive emergency
fund target, where the two semantics agree. -/
def scores (profile : UserFinancialProfile) : HealthScores where
  emergencyFund :=
    min 100 (profile.emergencyFundCurrent / profile.emergencyFundTarget * 100)
  debtToIncome :=
    max 0 (100 - totalDebt profile / (totalIncome profile * 12) * 100)
  savingsRate :=
    min 100 ((totalIncome profile - totalExpenses profile) / totalIncome profile
      * 100 * 5)
  netWorth :=
    min 100 (totalAssets profile / max 1 (totalDebt profile) * 20)
  creditScore :=
    match profile.creditScore with
    | some c => c / 850 * 100
    | none => 50
  budgetAdherence :=
    100 - |profile.budgetAllocation.actual.needs - profile.budgetAllocation.needs| * 2

/-- FinancialHealthScore.overallScore: Math.round of the weighted sum with
weights 0.25, 0.20, 0.20, 0.15, 0.10, 0.10. -/
def overallScore (profile : UserFinancialProfile) : ℤ :=
  round ((scores profile).emergencyFund * 0.25 +
    (scores profile).debtToIncome * 0.20 +
    (scores profile).savingsRate * 0.20 +
    (scores profile).netWorth * 0.15 +
    (scores profile).creditScore * 0.10 +
    (scores profile).budgetAdherence * 0.10)

/-! Concrete fixtures: the mock debts of the repository and small profiles
used to instantiate the claims. -/

def creditCardDebt : Debt := ⟨"Credit Card 1", 5000, 18.99, 150⟩

def studentLoanDebt : Debt := ⟨"Student Loan", 28000, 4.5, 350⟩

def autoLoanDebt : Debt := ⟨"Auto Loan", 15000, 5.2, 450⟩

/-- A profile with positive active income (1000), expenses far above
income (6000), empty debts and assets, positive emergency fund target,
no credit score, and on-target budget. -/
def lowSavingsProfile : UserFinancialProfile where
  incomes := [⟨"Job", 1000, true⟩]
  expenses := [⟨"Rent", 6000⟩]
  debts := []
  assets := []
  emergencyFundTarget := 1
  emergencyFundCurrent := 0
  creditScore := none
  budgetAllocation := ⟨50, 30, 20, ⟨50, 30, 20⟩⟩

def zeroReturnMetrics : FIREMetrics := ⟨0, 1000, 0⟩

def idleMetrics : FIREMetrics := ⟨0, 0, 12⟩

/-- A goal already funded beyond its target, with a far deadline. -/
def overFundedGoal : FinancialGoal := ⟨"g2", "Overfunded", 18000, 20000, 1200⟩

def emergencyGoal : FinancialGoal := ⟨"g1", "Emergency Fund", 18000, 8000, 600⟩

/-- C1 counterexample: at balance 5000, rate 18.99, payment 75 (below the
79.125 interest floor) the code returns the JavaScript number Infinity,
an infinite numeric value of the numeric return type; there is no distinct
NonConvergent tagged outcome in the code, contradicting the claim that no
unbounded or infinite numeric value is returned. -/
theorem calculatePayoffTime_returns_infinite_value :
    calculatePayoffTime ⟨"Credit Card 1", 5000, 18.99, 75⟩ 0 = JsNum.inf :=
  calculatePayoffTime_eq_inf _ 0 (by norm_num)

/-- C1 (amended): for payment at most balance times monthly rate the
computation returns the infinite numeric value Infinity, which callers
recognize by equality comparison as the non-convergent marker; for a
nonnegative balance, positive rate and payment above the interest floor it
returns a finite number. -/
theorem calculatePayoffTime_infinity_marker (debt : Debt) (extra : ℚ) :
    (debt.minimumPayment + extra ≤ debt.balance * (debt.interestRate / 100 / 12) →
      calculatePayoffTime debt extra = JsNum.inf) ∧
    (0 ≤ debt.balance → 0 < debt.interestRate →
      debt.balance * (debt.interestRate / 100 / 12) < debt.minimumPayment + extra →
      ∃ k : ℤ, calculatePayoffTime debt extra = JsNum.fin k) := by
  constructor
  · exact calculatePayoffTime_eq_inf debt extra
  · intro hb hr hp
    exact ⟨_, calculatePayoffTime_eq_fin debt extra hb hr hp⟩

/-- Witness for C1: the non-convergent marker at payment 75 against the
79.125 interest floor, and a finite result at payment 400. -/
theorem calculatePayoffTime_infinity_marker_witness :
    calculatePayoffTime ⟨"Credit Card 1", 5000, 18.99, 75⟩ 0 = JsNum.inf ∧
    ∃ k : ℤ, calculatePayoffTime creditCardDebt 250 = JsNum.fin k :=
  ⟨(calculatePayoffTime_infinity_marker _ 0).1 (by norm_num),
   (calculatePayoffTime_infinity_marker creditCardDebt 250).2
     (by norm_num [creditCardDebt]) (by norm_num [creditCardDebt])
     (by norm_num [creditCardDebt])⟩

/-- C2: on the convergent branch the months to payoff equal the ceiling of
ln(p / (p - balance r)) / ln(1 + r); at balance 5000, annual rate 18.99,
payment 400 the result is 15 months, and the direct month-by-month
amortization simulation also reports 15 months (difference 0, within the
claimed one month). -/
theorem calculatePayoffTime_closed_form :
    (∀ (debt : Debt) (extra : ℚ), 0 ≤ debt.balance → 0 < debt.interestRate →
      debt.balance * (debt.interestRate / 100 / 12) < debt.minimumPayment + extra →
      calculatePayoffTime debt extra =
        JsNum.fin ((⌈Real.log
            (((debt.minimumPayment : ℝ) + (extra : ℝ)) /
              (((debt.minimumPayment : ℝ) + (extra : ℝ)) -
                (debt.balance : ℝ) * ((debt.interestRate : ℝ) / 100 / 12))) /
          Real.log (1 + (debt.interestRate : ℝ) / 100 / 12)⌉ : ℤ) : ℝ)) ∧
    calculatePayoffTime creditCardDebt 250 = JsNum.fin ((15 : ℤ) : ℝ) ∧
    specAmortizationMonths (18.99 / 100 / 12) (150 + 250) 5000 30 = 15 := by
  refine ⟨?_, ?_, ?_⟩
  · intro debt extra hb hr hp
    exact calculatePayoffTime_eq_fin debt extra hb hr hp
  · have key : calculatePayoffTime creditCardDebt 250 =
        JsNum.fin ((⌈Real.log ((3200 : ℝ) / 2567) /
          Real.log ((40633 : ℝ) / 40000)⌉ : ℤ) : ℝ) := by
      rw [creditCardDebt,
        calculatePayoffTime_eq_fin _ _ (by norm_num) (by norm_num) (by norm_num)]
      norm_num
    rw [key, ceil_log_div_log_eq ((40633 : ℝ) / 40000) ((3200 : ℝ) / 2567)
      (by norm_num) 14 (by norm_num) (by norm_num)]
    norm_num
  · exact specAmortizationMonths_eq (18.99 / 100 / 12) (150 + 250) (by norm_num) 14
      5000 (by norm_num) (by norm_num) (by norm_num) (by norm_num) 30 (by norm_num)

/-- Witness for C2: the closed-form branch instantiated at the student
loan debt (balance 28000 at 4.5 percent, minimum payment 350, no extra). -/
theorem calculatePayoffTime_closed_form_witness :
    (0 : ℚ) ≤ 28000 ∧ (0 : ℚ) < 4.5 ∧
    (28000 : ℚ) * (4.5 / 100 / 12) < 350 + 0 ∧
    calculatePayoffTime studentLoanDebt 0 =
      JsNum.fin ((⌈Real.log ((350 : ℝ) / (350 - 28000 * (4.5 / 100 / 12))) /
        Real.log (1 + (4.5 : ℝ) / 100 / 12)⌉ : ℤ) : ℝ) := by
  refine ⟨by norm_num, by norm_num, by norm_num, ?_⟩
  have h := calculatePayoffTime_closed_form.1 studentLoanDebt 0
    (by norm_num [studentLoanDebt]) (by norm_num [studentLoanDebt])
    (by norm_num [studentLoanDebt])
  rw [h]
  norm_num [studentLoanDebt]

/-- C3: for a zero interest rate the code does not compute
ceiling(balance / payment): the closed-form branch divides
Math.log(1) by Math.log(1), that is 0 / 0, and returns NaN for a positive
payment; for a nonpositive payment it returns Infinity, not an
InvalidInput outcome.  This contradicts the claimed (and clearly intended)
zero-rate behavior, so the zero-rate case is a code bug. -/
theorem calculatePayoffTime_zero_rate_behavior :
    calculatePayoffTime ⟨"Zero Rate Loan", 1200, 0, 100⟩ 0 = JsNum.nan ∧
    calculatePayoffTime ⟨"Zero Rate Loan", 1200, 0, 0⟩ 0 = JsNum.inf := by
  constructor
  · unfold calculatePayoffTime
    rw [if_neg (by push_cast; norm_num)]
    norm_num [jsLog, jsDiv, jsCeil, Real.log_one]
  · unfold calculatePayoffTime
    rw [if_pos (by push_cast; norm_num)]

/-- C4: the six sub-scores are not all clamped to the 0 to 100 range.
With active income 1000 and expenses 6000 the savings rate sub-score is
min(100, -2500) = -2500, and the composite weighted score rounds to -465,
both far outside the claimed range (and outside the range stated by the
source comment Scoring factors (0-100 each)). -/
theorem healthScore_out_of_range :
    (scores lowSavingsProfile).savingsRate = -2500 ∧
    overallScore lowSavingsProfile = -465 := by
  constructor
  · simp [scores, lowSavingsProfile, totalIncome, totalExpenses]
    rw [min_eq_right (by norm_num)]
    norm_num
  · unfold overallScore
    simp [scores, lowSavingsProfile, totalIncome, totalExpenses, totalDebt,
      totalAssets]
    rw [round_eq]
    norm_num

/-- C5 counterexample: for a goal funded beyond its target (current 20000
against target 18000, deadline 1200 days out) the code returns a negative
required monthly amount, where the claim requires the remaining amount to
clamp to 0 and the result to be 0. -/
theorem calculateMonthlyNeeded_negative :
    calculateMonthlyNeeded overFundedGoal 0 < 0 := by
  unfold calculateMonthlyNeeded differenceInDays overFundedGoal
  rw [max_eq_right (by norm_num)]
  norm_num

/-- C5 (amended): requiredMonthly equals
(target - current) / max(1, daysUntil / 30) with the remaining amount not
clamped at zero (it is negative whenever current exceeds target, and the
quotient is then nonpositive); the divisor floor to one month for past or
near deadlines holds as claimed. -/
theorem calculateMonthlyNeeded_formula (goal : FinancialGoal) (now : ℤ) :
    calculateMonthlyNeeded goal now =
      (goal.targetAmount - goal.currentAmount) /
        max 1 (((goal.targetDate - now : ℤ) : ℚ) / 30) ∧
    (goal.targetDate - now ≤ 30 →
      calculateMonthlyNeeded goal now = goal.targetAmount - goal.currentAmount) ∧
    (goal.targetAmount ≤ goal.currentAmount → calculateMonthlyNeeded goal now ≤ 0) := by
  refine ⟨rfl, ?_, ?_⟩
  · intro h
    unfold calculateMonthlyNeeded differenceInDays
    rw [max_eq_left, div_one]
    rw [div_le_one (by norm_num)]
    exact_mod_cast h
  · intro h
    unfold calculateMonthlyNeeded differenceInDays
    apply div_nonpos_of_nonpos_of_nonneg
    · linarith
    · exact le_trans zero_le_one (le_max_left _ _)

/-- Witness for C5: a goal ten days from deadline floors to one month, and
the overfunded goal yields a nonpositive requirement. -/
theorem calculateMonthlyNeeded_formula_witness :
    ((⟨"g1", "Near Deadline", 18000, 8000, 10⟩ : FinancialGoal).targetDate - 0 ≤ 30 ∧
      calculateMonthlyNeeded ⟨"g1", "Near Deadline", 18000, 8000, 10⟩ 0 =
        (18000 : ℚ) - 8000) ∧
    ((18000 : ℚ) ≤ 20000 ∧ calculateMonthlyNeeded overFundedGoal 0 ≤ 0) := by
  constructor
  · refine ⟨by norm_num, ?_⟩
    exact (calculateMonthlyNeeded_formula ⟨"g1", "Near Deadline", 18000, 8000, 10⟩ 0).2.1
      (by norm_num)
  · refine ⟨by norm_num, ?_⟩
    exact (calculateMonthlyNeeded_formula overFundedGoal 0).2.2
      (by norm_num [overFundedGoal])

/-- C6 counterexample: with zero annual return the code has no separate
branch; it evaluates (1 ^ 12 - 1) / 0 = 0 / 0 = NaN, so the projected
value at year 1 for savings 0 and contribution 1000 is NaN, not the
claimed 12000. -/
theorem calculateFutureValue_zero_return_not_linear :
    calculateFutureValue zeroReturnMetrics 1 = JsNum.nan ∧
    JsNum.nan ≠ JsNum.fin 12000 :=
  ⟨by simp [calculateFutureValue, zeroReturnMetrics, jsDiv, jsMul, jsAdd, jsRound],
   fun h => JsNum.noConfusion h⟩

/-- C6 (amended): for a positive return rate the projected value is the
rounding (Math.round) of
pv (1+r)^n + pmt ((1+r)^n - 1) / r with n = 12 year, not the bare
formula; for a zero return rate the code produces NaN instead of
pv + pmt n. -/
theorem calculateFutureValue_rounded_formula (metrics : FIREMetrics) (year : ℕ) :
    (0 < metrics.expectedReturn →
      calculateFutureValue metrics year = JsNum.fin
        ((round ((metrics.currentSavings : ℝ) *
            (1 + (metrics.expectedReturn : ℝ) / 100 / 12) ^ (year * 12) +
          (metrics.monthlyContribution : ℝ) *
            (((1 + (metrics.expectedReturn : ℝ) / 100 / 12) ^ (year * 12) - 1) /
              ((metrics.expectedReturn : ℝ) / 100 / 12))) : ℤ) : ℝ)) ∧
    (metrics.expectedReturn = 0 → calculateFutureValue metrics year = JsNum.nan) := by
  constructor
  · intro h
    have hr : ((metrics.expectedReturn : ℝ) / 100 / 12) ≠ 0 := by
      have hx : (0 : ℝ) < (metrics.expectedReturn : ℝ) := by exact_mod_cast h
      positivity
    unfold calculateFutureValue
    rw [jsDiv_fin_fin _ hr]
    rfl
  · intro h
    simp [calculateFutureValue, h, jsDiv, jsMul, jsAdd, jsRound]

/-- Witness for C6: the rounded compounding formula at savings 1000,
contribution 100, return 12 percent, year 1; and NaN at zero return. -/
theorem calculateFutureValue_rounded_formula_witness :
    ((0 : ℚ) < 12 ∧ calculateFutureValue ⟨1000, 100, 12⟩ 1 =
      JsNum.fin ((round ((1000 : ℝ) * (1 + (12 : ℝ) / 100 / 12) ^ (1 * 12) +
        (100 : ℝ) * (((1 + (12 : ℝ) / 100 / 12) ^ (1 * 12) - 1) /
          ((12 : ℝ) / 100 / 12))) : ℤ) : ℝ)) ∧
    calculateFutureValue zeroReturnMetrics 1 = JsNum.nan := by
  refine ⟨⟨by norm_num, ?_⟩,
    (calculateFutureValue_rounded_formula zeroReturnMetrics 1).2 rfl⟩
  have h := (calculateFutureValue_rounded_formula ⟨1000, 100, 12⟩ 1).1 (by norm_num)
  rw [h]
  norm_num

/-- C7: the With Extra $500/mo series is not the future-value formula with
the contribution raised by 500.  For savings 0, contribution 0, return 12
percent, year 1 the code computes baseline + 500 * 12 * 1 * 1.07 = 6420,
while the same formula with contribution 0 + 500 gives
round(500 ((1.01)^12 - 1) / 0.01) = 6341.  The spec flags the source
expression as an ad hoc inconsistency, so this is a code bug. -/
theorem projectionWithExtra_inconsistent :
    projectionWithExtra idleMetrics 1 = JsNum.fin 6420 ∧
    calculateFutureValue ⟨0, 0 + 500, 12⟩ 1 = JsNum.fin 6341 ∧
    projectionWithExtra idleMetrics 1 ≠ calculateFutureValue ⟨0, 0 + 500, 12⟩ 1 := by
  have h1 : projectionWithExtra idleMetrics 1 = JsNum.fin 6420 := by
    unfold projectionWithExtra calculateFutureValue idleMetrics
    rw [jsDiv_fin_fin _ (by push_cast; norm_num)]
    simp only [jsMul, jsAdd, jsRound]
    norm_num [round_eq]
  have h2 : calculateFutureValue ⟨0, 0 + 500, 12⟩ 1 = JsNum.fin 6341 := by
    unfold calculateFutureValue
    rw [jsDiv_fin_fin _ (by push_cast; norm_num)]
    simp only [jsMul, jsAdd, jsRound]
    norm_num [round_eq]
  refine ⟨h1, h2, ?_⟩
  rw [h1, h2]
  intro h
  have := JsNum.fin.inj h
  norm_num at this

/-- C8: avalanche orders by interest rate descending, snowball by balance
ascending, both as stable permutations (elements with equal key keep their
input order); the mock debts with rates 18.99, 4.5, 5.2 and balances
5000, 28000, 15000 sort to 18.99, 5.2, 4.5 and 5000, 15000, 28000. -/
theorem sortedDebts_ordering :
    (∀ debts : List Debt,
      (sortedDebts .avalanche debts).Pairwise
        (fun a b => b.interestRate ≤ a.interestRate) ∧
      (sortedDebts .avalanche debts).Perm debts ∧
      ∀ q : ℚ, (sortedDebts .avalanche debts).filter
          (fun d => decide (d.interestRate = q)) =
        debts.filter (fun d => decide (d.interestRate = q))) ∧
    (∀ debts : List Debt,
      (sortedDebts .snowball debts).Pairwise (fun a b => a.balance ≤ b.balance) ∧
      (sortedDebts .snowball debts).Perm debts ∧
      ∀ q : ℚ, (sortedDebts .snowball debts).filter
          (fun d => decide (d.balance = q)) =
        debts.filter (fun d => decide (d.balance = q))) ∧
    sortedDebts .avalanche [creditCardDebt, studentLoanDebt, autoLoanDebt] =
      [creditCardDebt, autoLoanDebt, studentLoanDebt] ∧
    sortedDebts .snowball [creditCardDebt, studentLoanDebt, autoLoanDebt] =
      [creditCardDebt, autoLoanDebt, studentLoanDebt] := by
  refine ⟨fun debts => ⟨?_, ?_, ?_⟩, fun debts => ⟨?_, ?_, ?_⟩, ?_, ?_⟩
  · exact stableSort_pairwise _
      (fun a b => le_total b.interestRate a.interestRate)
      (fun a b c hab hbc => le_trans hbc hab) debts
  · exact stableSort_perm _ debts
  · intro q
    refine filter_stableSort _ _ (fun x y hx hy => ?_) debts
    rw [decide_eq_true_eq] at hx hy
    rw [hx, hy]
  · exact stableSort_pairwise _
      (fun a b => le_total a.balance b.balance)
      (fun a b c hab hbc => le_trans hab hbc) debts
  · exact stableSort_perm _ debts
  · intro q
    refine filter_stableSort _ _ (fun x y hx hy => ?_) debts
    rw [decide_eq_true_eq] at hx hy
    rw [hx, hy]
  · norm_num [sortedDebts, stableSort, insertSorted, creditCardDebt,
      studentLoanDebt, autoLoanDebt]
  · norm_num [sortedDebts, stableSort, insertSorted, creditCardDebt,
      studentLoanDebt, autoLoanDebt]

/-- C9 counterexample: the goal funding calculation reads the ambient
clock, not an explicit asOfDate input; with the same goal structure it
returns 500 when 600 days remain and 1000 when 300 days remain, so its
output is not a function of the input structure alone. -/
theorem calculateMonthlyNeeded_clock_dependence :
    calculateMonthlyNeeded emergencyGoal 0 ≠ calculateMonthlyNeeded emergencyGoal 300 := by
  unfold calculateMonthlyNeeded differenceInDays emergencyGoal
  rw [max_eq_right (by norm_num), max_eq_right (by norm_num)]
  norm_num

/-- C9 (amended): every engine component is a deterministic, stateless
function of its inputs together with the ambient current date; holding
that date fixed (it is an explicit parameter of the model), repeated calls
on identical input structures give identical outputs. -/
theorem engine_components_deterministic :
    (∀ (debt : Debt) (extra : ℚ),
      calculatePayoffTime debt extra = calculatePayoffTime debt extra) ∧
    (∀ (strategy : Strategy) (debts : List Debt),
      payoffPlan strategy debts = payoffPlan strategy debts) ∧
    (∀ (metrics : FIREMetrics) (year : ℕ),
      calculateFutureValue metrics year = calculateFutureValue metrics year) ∧
    (∀ (goal : FinancialGoal) (now : ℤ),
      calculateMonthlyNeeded goal now = calculateMonthlyNeeded goal now) ∧
    (∀ profile : UserFinancialProfile,
      scores profile = scores profile ∧ overallScore profile = overallScore profile) :=
  ⟨fun _ _ => rfl, fun _ _ => rfl, fun _ _ => rfl, fun _ _ => rfl,
   fun _ => ⟨rfl, rfl⟩⟩

theorem planFrom_map_debt (i : ℕ) (l : List Debt) :
    (planFrom i l).map (fun item => item.debt) = l := by
  induction l generalizing i with
  | nil => rfl
  | cons d rest ih => simp [planFrom, ih]

theorem planFrom_map_order (i : ℕ) (l : List Debt) :
    (planFrom i l).map (fun item => item.payoffOrder) = List.range' (i + 1) l.length := by
  induction l generalizing i with
  | nil => rfl
  | cons d rest ih => simp [planFrom, ih, List.range']

theorem planFrom_map_extra_ne (i : ℕ) (hi : i ≠ 0) (l : List Debt) :
    (planFrom i l).map (fun item => item.extraPayment) = List.replicate l.length 0 := by
  induction l generalizing i with
  | nil => rfl
  | cons d rest ih =>
      simp [planFrom, hi, ih (i + 1) (Nat.succ_ne_zero i), List.replicate]

/-- C10 counterexample: on an empty debt list the plan is empty, so the
sum of assigned extra payments is 0, not the extra budget of 500. -/
theorem payoffPlan_empty_extra_sum :
    ((payoffPlan .avalanche []).map (fun item => item.extraPayment)).sum ≠
      extraPaymentBudget := by
  simp [payoffPlan, sortedDebts, stableSort, planFrom, extraPaymentBudget]

/-- C10 (amended): the plan is a permutation of the input debts, the
payoff orders are exactly 1..n in list order, the extra payment list is
the budget followed by zeros, and for a nonempty debt list the extra
payments sum to the whole budget (for an empty list the sum is 0). -/
theorem payoffPlan_allocation (strategy : Strategy) (debts : List Debt) :
    ((payoffPlan strategy debts).map (fun item => item.debt)).Perm debts ∧
    (payoffPlan strategy debts).map (fun item => item.payoffOrder) =
      List.range' 1 debts.length ∧
    (payoffPlan strategy debts).map (fun item => item.extraPayment) =
      (if debts.length = 0 then []
        else extraPaymentBudget :: List.replicate (debts.length - 1) 0) ∧
    (debts ≠ [] →
      ((payoffPlan strategy debts).map (fun item => item.extraPayment)).sum =
        extraPaymentBudget) := by
  have hperm : (sortedDebts strategy debts).Perm debts := by
    cases strategy <;> exact stableSort_perm _ debts
  have hlen : (sortedDebts strategy debts).length = debts.length := hperm.length_eq
  have hextra : (payoffPlan strategy debts).map (fun item => item.extraPayment) =
      (if debts.length = 0 then []
        else extraPaymentBudget :: List.replicate (debts.length - 1) 0) := by
    rcases hs : sortedDebts strategy debts with _ | ⟨d, rest⟩
    · rw [payoffPlan, hs]
      rw [hs] at hlen
      simp only [List.length_nil] at hlen
      rw [if_pos hlen.symm]
      rfl
    · rw [payoffPlan, hs]
      rw [hs] at hlen
      simp only [List.length_cons] at hlen
      rw [if_neg (by omega)]
      have hr : rest.length = debts.length - 1 := by omega
      have h1 : (planFrom 0 (d :: rest)).map (fun item => item.extraPayment) =
          extraPaymentBudget :: List.replicate rest.length 0 := by
        simp [planFrom, planFrom_map_extra_ne 1 one_ne_zero]
      rw [h1, hr]
  refine ⟨?_, ?_, hextra, ?_⟩
  · rw [payoffPlan, planFrom_map_debt]
    exact hperm
  · rw [payoffPlan, planFrom_map_order, hlen]
  · intro hne
    rw [hextra, if_neg (by simpa using List.length_pos.mpr hne |>.ne.symm)]
    simp [List.sum_replicate]

/-- Witness for C10: on the three mock debts the extra payments sum to the
full 500 budget. -/
theorem payoffPlan_allocation_witness :
    [creditCardDebt, studentLoanDebt, autoLoanDebt] ≠ ([] : List Debt) ∧
    ((payoffPlan .avalanche [creditCardDebt, studentLoanDebt, autoLoanDebt]).map
      (fun item => item.extraPayment)).sum = extraPaymentBudget :=
  ⟨by simp, (payoffPlan_allocation .avalanche _).2.2.2 (by simp)⟩

end
